import Mathlib

/-!
Verification of the NovaTiny security and consensus layer.

The repository ships the security layer of `src/firmware/nova-tiny` as header
declarations (`TinySecure.h`, `NovaCore.h`, `SovereignAI.h`): structures,
constants and method signatures, with the method bodies absent from the
repository.  The behaviour of those methods is therefore modelled here from the
specification (`spec.md` sections 3-8), while everything that is present in the
source - the data-model fields, the numeric constants of the three headers, and
the control flow of `processNanobotCommands` in `main.cpp` - is embedded
directly from the source.

Conventions of the embedding:
* C++ `String` identifiers become `Nat` identifiers.
* Byte buffers (key material, payloads, nonces, tags) become `Nat` values.
* C++ `float` scores and coordinates become `ℚ`; rational literals are written
  with `mkRat`.
* `uint32_t` timestamps become `Nat` (overflow plays no role in any claim).
* Fallible operations return an explicit result inductive or `Option`.
-/

namespace NovaTiny

/-! ## CryptoEngine (spec section 4.1; declarations `TinySecure.h` lines 240-242) -/

/-- Modelled from the spec: the keystream of the symmetric cipher behind
`TinySecure::encryptCommand` (body absent from the repository).  The cipher is
modelled as a stream cipher: a keystream derived injectively from key and
nonce, XORed with the plaintext. -/
def keystream (key nonce : Nat) : Nat :=
  Nat.pair key nonce

/-- Modelled from the spec: the authentication tag computed over the
ciphertext (spec 4.1: `encrypt(plaintext, key) -> (ciphertext, nonce, tag)`).
The MAC is modelled as an injective digest of key, nonce and ciphertext. -/
def authTag (key nonce ciphertext : Nat) : Nat :=
  Nat.pair key (Nat.pair nonce ciphertext)

/-- Modelled from the spec: `encrypt(plaintext, key) -> (ciphertext, nonce,
tag)` (spec 4.1).  The nonce comes from the process-wide random source and is
passed here explicitly. -/
def encrypt (plaintext key nonce : Nat) : Nat × Nat × Nat :=
  let c := plaintext ^^^ keystream key nonce
  (c, nonce, authTag key nonce c)

/-- Result of `decrypt` (spec 4.1): plaintext or a distinct
`AuthenticationFailure`, never partial plaintext. -/
inductive DecryptResult where
  | ok (plaintext : Nat)
  | authenticationFailure
deriving DecidableEq

/-- Modelled from the spec: `decrypt(ciphertext, nonce, tag, key) ->
plaintext | AuthenticationFailure` (spec 4.1).  Decrypt fails closed: the tag
is recomputed and any mismatch yields `authenticationFailure`. -/
def decrypt (ciphertext nonce tag key : Nat) : DecryptResult :=
  if authTag key nonce ciphertext = tag then
    .ok (ciphertext ^^^ keystream key nonce)
  else
    .authenticationFailure

/-- Flip bit `i` of a value: the tampering step of spec section 8. -/
def flipBit (x i : Nat) : Nat :=
  x ^^^ 2 ^ i

/-! ## KeyStore (spec sections 3 and 4.2; `SecurityKey` from `TinySecure.h`
lines 104-115, lookup declaration `getCurrentKey` line 255) -/

/-- `SecurityKey` from `TinySecure.h` lines 104-115.  `key_id` and the key
material buffers become `Nat`; the mbedtls ECDSA context carries no modelled
state. -/
structure SecurityKey where
  key_id : Nat
  aes_key : Nat
  rsa_public_key : Nat
  rsa_private_key : Nat
  creation_time : Nat
  expiration_time : Nat
  is_ephemeral : Bool
  blockchain_hash : Nat
  is_revoked : Bool
deriving DecidableEq

/-- A key is usable for encryption when it is neither revoked nor past its
expiration time (spec 3: invariant on `SecurityKey`; spec 4.2 `lookup`). -/
def isValidKey (k : SecurityKey) (now : Nat) : Bool :=
  !k.is_revoked && now ≤ k.expiration_time

/-- Result of `lookup(key_id)` (spec 4.2): `SecurityKey | NotFound | Expired |
Revoked`. -/
inductive LookupResult where
  | found (key : SecurityKey)
  | notFound
  | expired
  | revoked
deriving DecidableEq

/-- Modelled from the spec: the key table owned by the KeyStore
(`TinySecure.h` lines 184-186 declares the master key and the ephemeral key
array; the managing code is absent from the repository). -/
structure KeyStore where
  keys : List SecurityKey

/-- Modelled from the spec: `revoke(key_id)` (spec 4.2) - idempotent, sets the
revoked flag and zeroes the key material immediately. -/
def revokeKey (s : KeyStore) (kid : Nat) : KeyStore :=
  ⟨s.keys.map (fun k =>
    if k.key_id = kid then
      { k with aes_key := 0, rsa_private_key := 0, is_revoked := true }
    else k)⟩

/-- Modelled from the spec: `lookup(key_id) -> SecurityKey | NotFound |
Expired | Revoked` (spec 4.2), the single lookup path behind
`TinySecure::getCurrentKey`.  A revoked key reports `revoked`, a key past its
expiration time reports `expired`; only a live key is returned. -/
def lookupKey (s : KeyStore) (kid : Nat) (now : Nat) : LookupResult :=
  match s.keys.find? (fun k => k.key_id == kid) with
  | none => .notFound
  | some k =>
      if k.is_revoked then .revoked
      else if k.expiration_time < now then .expired
      else .found k

/-- Modelled from the spec: the encryption path consults `lookup` and treats
`Expired`/`Revoked` identically to `NotFound` (spec 4.2). -/
def lookupKeyForEncryption (s : KeyStore) (kid : Nat) (now : Nat) : Option SecurityKey :=
  match lookupKey s kid now with
  | .found k => some k
  | _ => none

/-- Modelled from the spec: `TinySecure::encryptCommand` (declaration
`TinySecure.h` line 240, body absent).  Encryption proceeds only with a valid
(non-expired, non-revoked) key. -/
def encryptCommand (plaintext : Nat) (k : SecurityKey) (now nonce : Nat) :
    Option (Nat × Nat × Nat) :=
  if isValidKey k now then some (encrypt plaintext k.aes_key nonce) else none

/-- Modelled from the spec: `TinySecure::decryptCommand` together with
`validateCommandIntegrity` (declarations `TinySecure.h` lines 241-242):
authenticated decryption with the key's symmetric material. -/
def decryptCommand (ciphertext nonce tag : Nat) (k : SecurityKey) : DecryptResult :=
  decrypt ciphertext nonce tag k.aes_key

/-! ### Crypto helper lemmas -/

/-- Flipping a bit always changes the value. -/
theorem flipBit_ne (x i : Nat) : flipBit x i ≠ x := by
  intro h
  have h2 : x ^^^ (x ^^^ 2 ^ i) = x ^^^ x := by
    unfold flipBit at h
    rw [h]
  rw [← Nat.xor_assoc, Nat.xor_self, Nat.zero_xor] at h2
  have hp : (0:Nat) < 2 ^ i := Nat.two_pow_pos i
  omega

/-- The modelled tag is injective in the nonce and ciphertext for a fixed
key. -/
theorem authTag_inj {key n c n' c' : Nat}
    (h : authTag key n c = authTag key n' c') : n = n' ∧ c = c' := by
  unfold authTag at h
  have h1 := (Nat.pair_eq_pair.mp h).2
  exact Nat.pair_eq_pair.mp h1

/-- C2: for every ciphertext produced by `encrypt`, flipping any single bit of
the ciphertext, of the nonce, or of the authentication tag makes `decrypt`
return `authenticationFailure`; in particular no plaintext - partial or
different - is ever returned on a tampered input. -/
theorem claim2_bit_flip_fails_authentication (p key nonce i : Nat) :
    decrypt (flipBit (encrypt p key nonce).1 i) nonce (encrypt p key nonce).2.2 key
      = .authenticationFailure ∧
    decrypt (encrypt p key nonce).1 (flipBit nonce i) (encrypt p key nonce).2.2 key
      = .authenticationFailure ∧
    decrypt (encrypt p key nonce).1 nonce (flipBit (encrypt p key nonce).2.2 i) key
      = .authenticationFailure := by
  simp only [encrypt]
  refine ⟨?_, ?_, ?_⟩
  · unfold decrypt
    rw [if_neg]
    intro h
    exact flipBit_ne _ i (authTag_inj h).2
  · unfold decrypt
    rw [if_neg]
    intro h
    exact flipBit_ne nonce i (authTag_inj h).1
  · unfold decrypt
    rw [if_neg]
    intro h
    exact flipBit_ne _ i h.symm
/-- C5: encrypting a plaintext under a valid (non-expired, non-revoked) key
and decrypting the result with the same key returns the original plaintext. -/
theorem claim5_encrypt_decrypt_roundtrip (p now nonce : Nat) (k : SecurityKey)
    (h : isValidKey k now = true) :
    (encryptCommand p k now nonce).map
      (fun e => decryptCommand e.1 e.2.1 e.2.2 k) = some (.ok p) := by
  unfold encryptCommand
  rw [if_pos h]
  simp only [Option.map_some', encrypt]
  unfold decryptCommand decrypt
  rw [if_pos rfl, Nat.xor_assoc, Nat.xor_self, Nat.xor_zero]

/-- Sample key for the round-trip witness. -/
def sampleKey : SecurityKey :=
  ⟨1, 42, 11, 13, 0, 100, true, 5, false⟩

/-- Witness for C5 at a concrete plaintext, key and nonce. -/
theorem claim5_encrypt_decrypt_roundtrip_witness :
    isValidKey sampleKey 50 = true ∧
    (encryptCommand 7 sampleKey 50 3).map
      (fun e => decryptCommand e.1 e.2.1 e.2.2 sampleKey) = some (.ok 7) :=
  ⟨by decide, claim5_encrypt_decrypt_roundtrip 7 50 3 sampleKey (by decide)⟩

/-! ### KeyStore lemmas for C3 -/

/-- Revoking an identifier rewrites exactly the matching entries of the key
table, as seen by `find?` on that identifier. -/
theorem find?_revokeKey (keys : List SecurityKey) (kid : Nat) :
    (revokeKey ⟨keys⟩ kid).keys.find? (fun k => k.key_id == kid) =
      ((keys.find? (fun k => k.key_id == kid)).map
        (fun k => { k with aes_key := 0, rsa_private_key := 0, is_revoked := true })) := by
  induction keys with
  | nil => rfl
  | cons k ks ih =>
      by_cases hk : k.key_id = kid
      · simp [revokeKey, hk, List.find?_cons_of_pos]
      · have hk' : (k.key_id == kid) = false := by simp [hk]
        simp only [revokeKey, List.map_cons, if_neg hk]
        rw [List.find?_cons_of_neg _ (by simp [hk]), List.find?_cons_of_neg _ (by simp [hk])]
        exact ih

/-- C3: after `revoke(k)` every lookup of `k` reports `revoked`, and once the
current time passes `expiration_time` it reports `expired`; in both situations
the lookup never returns the original key material, and the lookup path used
for encryption returns no key at all. -/
theorem claim3_revoked_or_expired_key_never_returned (s : KeyStore) (kid now : Nat) :
    (lookupKey s kid now ≠ .notFound →
      lookupKey (revokeKey s kid) kid now = .revoked ∧
      lookupKeyForEncryption (revokeKey s kid) kid now = none) ∧
    (∀ k, s.keys.find? (fun k => k.key_id == kid) = some k →
      k.is_revoked = false → k.expiration_time < now →
      lookupKey s kid now = .expired) ∧
    (∀ k, s.keys.find? (fun k => k.key_id == kid) = some k →
      (k.is_revoked = true ∨ k.expiration_time < now) →
      lookupKeyForEncryption s kid now = none ∧
      ∀ k', lookupKey s kid now ≠ .found k') := by
  obtain ⟨keys⟩ := s
  refine ⟨?_, ?_, ?_⟩
  · intro h
    have hrw := find?_revokeKey keys kid
    unfold lookupKey at h ⊢
    cases hf : keys.find? (fun k => k.key_id == kid) with
    | none => simp [hf] at h
    | some k =>
        rw [show (revokeKey ⟨keys⟩ kid).keys = (revokeKey ⟨keys⟩ kid).keys from rfl, hrw, hf]
        simp [lookupKeyForEncryption, lookupKey, hrw, hf]
  · intro k hf hrev hexp
    unfold lookupKey
    rw [hf]
    simp [hrev, hexp]
  · intro k hf hbad
    unfold lookupKeyForEncryption lookupKey
    rw [hf]
    rcases hbad with hrev | hexp
    · simp [hrev]
    · by_cases hrev : k.is_revoked
      · simp [hrev]
      · simp [hrev, hexp]

/-- Sample key table for the C3 witness: key 1 is live at time 50, key 2 is
past its expiration. -/
def sampleStore : KeyStore :=
  ⟨[⟨1, 42, 11, 13, 0, 100, true, 5, false⟩, ⟨2, 77, 11, 13, 0, 30, true, 5, false⟩]⟩

/-- Witness for C3: in the concrete store, revoking key 1 makes its lookup
report `revoked` with no key material, and key 2 (expired at time 50) reports
`expired`. -/
theorem claim3_revoked_or_expired_key_never_returned_witness :
    (lookupKey (revokeKey sampleStore 1) 1 50 = .revoked ∧
      lookupKeyForEncryption (revokeKey sampleStore 1) 1 50 = none) ∧
    lookupKey sampleStore 2 50 = .expired :=
  ⟨(claim3_revoked_or_expired_key_never_returned sampleStore 1 50).1 (by decide),
   (claim3_revoked_or_expired_key_never_returned sampleStore 2 50).2.1
     ⟨2, 77, 11, 13, 0, 30, true, 5, false⟩ (by decide) (by decide) (by decide)⟩

/-! ## ConsensusCoordinator (spec sections 4.5 and 5; constants and
declarations from `TinySecure.h` lines 49-57 and 147-157, 267-268) -/

/-- `MULTI_AI_VOTING_COUNT` from `TinySecure.h` line 54. -/
def MULTI_AI_VOTING_COUNT : Nat := 7

/-- `CONSENSUS_APPROVAL_THRESHOLD` (0.8) from `TinySecure.h` line 55. -/
def CONSENSUS_APPROVAL_THRESHOLD : ℚ := mkRat 8 10

/-- `DANGEROUS_OPERATION_VOTES` from `TinySecure.h` line 56 - the vote count
the consensus coordinator itself requires for dangerous operations. -/
def TinySecure.DANGEROUS_OPERATION_VOTES : Nat := 9

/-- `DANGEROUS_OPERATION_VOTES` from `SovereignAI.h` line 45. -/
def SovereignAI.DANGEROUS_OPERATION_VOTES : Nat := 7

/-- `DANGEROUS_OPERATION_VOTES_REQUIRED` from `NovaCore.h` line 34. -/
def NovaCore.DANGEROUS_OPERATION_VOTES_REQUIRED : Nat := 5

/-- `ConsensusVote` from `TinySecure.h` lines 147-157.  String identifiers
and the free-text reasoning become `Nat`. -/
structure ConsensusVote where
  vote_id : Nat
  ai_identity : Nat
  decision_hash : Nat
  approve : Bool
  confidence_score : ℚ
  reasoning : Nat
  timestamp : Nat
  signature : Nat
  is_ethical_veto : Bool
deriving DecidableEq

/-- A vote carrying ethical-veto power against the command (spec 4.5:
`is_ethical_veto = true` and `approve = false`). -/
def isVetoVote (v : ConsensusVote) : Bool :=
  v.is_ethical_veto && !v.approve

/-- State machine per decision (spec 4.5): `OPEN` collecting votes,
`APPROVED` / `REJECTED` / `TIMED_OUT` terminal. -/
inductive ConsensusPhase where
  | OPEN
  | APPROVED
  | REJECTED
  | TIMED_OUT
deriving DecidableEq

/-- Modelled from the spec: one consensus decision owned by the coordinator
(`TinySecure.h` lines 201-203 declare the vote table; the coordinating code is
absent from the repository). -/
structure ConsensusDecision where
  decision_hash : Nat
  expected_voters : Nat
  minimum_quorum : Nat
  dangerous : Bool
  votes : List ConsensusVote
  phase : ConsensusPhase
deriving DecidableEq

/-- Number of approving votes among those received. -/
def approvalCount (vs : List ConsensusVote) : Nat :=
  (vs.filter (fun v => v.approve)).length

/-- The numeric approval test of spec 4.5: `approval_ratio ≥
CONSENSUS_APPROVAL_THRESHOLD`, written multiplicatively as `approvals ≥
threshold * total` (equivalent for a positive total, and quorum keeps the
total positive whenever the test gates an approval). -/
def ratioApproved (vs : List ConsensusVote) : Bool :=
  decide (CONSENSUS_APPROVAL_THRESHOLD * (vs.length : ℚ) ≤ (approvalCount vs : ℚ))

/-- Modelled from the spec: the numeric branch of the resolution rule (spec
4.5) - `APPROVED` when the ratio threshold and the quorum are met and, for
dangerous operations, at least `DANGEROUS_OPERATION_VOTES` votes are in;
otherwise `REJECTED`. -/
def numericOutcome (d : ConsensusDecision) : ConsensusPhase :=
  if ratioApproved d.votes
      && decide (d.minimum_quorum ≤ d.votes.length)
      && (!d.dangerous || decide (TinySecure.DANGEROUS_OPERATION_VOTES ≤ d.votes.length))
  then .APPROVED else .REJECTED

/-- Modelled from the spec: the resolution rule evaluated after each vote
(spec 4.5) - an ethical veto rejects immediately; otherwise the numeric rule
applies once all expected voters responded; otherwise the decision stays
open. -/
def evaluateResolution (d : ConsensusDecision) : ConsensusPhase :=
  if d.votes.any isVetoVote then .REJECTED
  else if d.expected_voters ≤ d.votes.length then numericOutcome d
  else .OPEN

/-- Modelled from the spec: `TinySecure::submitConsensusVote` (declaration
`TinySecure.h` line 267, body absent).  A vote against a terminal decision is
kept for audit only and changes nothing (`StaleDecision`); a duplicate voter
is rejected (`DuplicateVoter`); an accepted vote is appended and the
resolution rule is re-evaluated. -/
def submitConsensusVote (d : ConsensusDecision) (v : ConsensusVote) : ConsensusDecision :=
  if d.phase = .OPEN then
    if d.votes.any (fun u => u.ai_identity == v.ai_identity) then d
    else
      { d with votes := d.votes ++ [v],
               phase := evaluateResolution { d with votes := d.votes ++ [v] } }
  else d

/-- Modelled from the spec: the timeout tick after `CONSENSUS_TIMEOUT_MS`
(`TinySecure.h` line 49; spec 4.5) - a veto rejects, fewer than
`minimum_quorum` votes time the decision out, and otherwise the numeric rule
decides. -/
def timeoutTick (d : ConsensusDecision) : ConsensusDecision :=
  if d.phase = .OPEN then
    if d.votes.any isVetoVote then { d with phase := .REJECTED }
    else if d.votes.length < d.minimum_quorum then { d with phase := .TIMED_OUT }
    else { d with phase := numericOutcome d }
  else d

/-- Modelled from the spec: `TinySecure::requestConsensus` (declaration
`TinySecure.h` line 268, body absent) opens a fresh decision with no votes. -/
def requestConsensus (hash expected quorum : Nat) (dangerous : Bool) : ConsensusDecision :=
  ⟨hash, expected, quorum, dangerous, [], .OPEN⟩

/-- Modelled from the spec: the CommandGate executes a command only on an
`APPROVED` consensus phase; `TIMED_OUT` and every other non-approved phase is
reject-by-default (spec 4.5 and 4.6). -/
def gateExecutesOnPhase : ConsensusPhase → Bool
  | .APPROVED => true
  | _ => false

/-! ### Consensus lemmas -/

/-- A decision that left the `OPEN` phase is unchanged by further vote
submissions (spec 5: late votes are audit-only). -/
theorem foldl_submit_of_not_open (vs : List ConsensusVote) (d : ConsensusDecision)
    (h : d.phase ≠ .OPEN) : vs.foldl submitConsensusVote d = d := by
  induction vs with
  | nil => rfl
  | cons w ws ih =>
      rw [List.foldl_cons, submitConsensusVote, if_neg h]
      exact ih

/-- Main induction for C1: from an open decision whose recorded votes carry no
veto, with all voters distinct and the total vote count within the expected
voter count, a vote list containing a veto always drives the fold to
`REJECTED`. -/
theorem veto_rejects_aux (vs : List ConsensusVote) :
    ∀ d : ConsensusDecision,
      d.phase = .OPEN →
      ((d.votes ++ vs).map (fun v => v.ai_identity)).Nodup →
      d.votes.length + vs.length ≤ d.expected_voters →
      (∀ u ∈ d.votes, isVetoVote u = false) →
      (∃ v ∈ vs, isVetoVote v = true) →
      (vs.foldl submitConsensusVote d).phase = .REJECTED := by
  induction vs with
  | nil =>
      intro d _ _ _ _ hex
      obtain ⟨v, hv, _⟩ := hex
      cases hv
  | cons w ws ih =>
      intro d hopen hnd hlen hnov hex
      have hnd' : ((d.votes.map (fun v => v.ai_identity)) ++
          ((w :: ws).map (fun v => v.ai_identity))).Nodup := by
        simpa using hnd
      have hdisj := (List.nodup_append.mp hnd').2.2
      have hdup : d.votes.any (fun u => u.ai_identity == w.ai_identity) = false := by
        rw [List.any_eq_false]
        intro u hu he
        have heq : u.ai_identity = w.ai_identity := eq_of_beq he
        exact hdisj (List.mem_map_of_mem _ hu)
          (by rw [heq]; exact List.mem_map_of_mem _ (by simp))
      rw [List.foldl_cons, submitConsensusVote, if_pos hopen, if_neg (by rw [hdup]; simp)]
      set d' : ConsensusDecision :=
        { d with votes := d.votes ++ [w],
                 phase := evaluateResolution { d with votes := d.votes ++ [w] } } with hd'
      by_cases hw : isVetoVote w = true
      · have hres : evaluateResolution { d with votes := d.votes ++ [w] } = .REJECTED := by
          unfold evaluateResolution
          rw [if_pos]
          simp [hw]
        have : d'.phase = .REJECTED := by rw [hd']; exact hres
        rw [foldl_submit_of_not_open ws d' (by rw [this]; intro hc; cases hc)]
        exact this
      · have hw' : isVetoVote w = false := by simpa using hw
        obtain ⟨v, hv, hvveto⟩ := hex
        have hvws : v ∈ ws := by
          rcases List.mem_cons.mp hv with h1 | h1
          · rw [h1] at hvveto; rw [hvveto] at hw'; cases hw'
          · exact h1
        have hws_ne : 1 ≤ ws.length := List.length_pos_of_mem hvws
        have hnov' : ∀ u ∈ d.votes ++ [w], isVetoVote u = false := by
          intro u hu
          rcases List.mem_append.mp hu with h1 | h1
          · exact hnov u h1
          · simp at h1; rw [h1]; exact hw'
        have hanyf : (d.votes ++ [w]).any isVetoVote = false := by
          rw [List.any_eq_false]
          intro u hu
          simp [hnov' u hu]
        have hres : evaluateResolution { d with votes := d.votes ++ [w] } = .OPEN := by
          unfold evaluateResolution
          rw [if_neg (by simp [hanyf]), if_neg]
          simp only [List.length_append, List.length_cons, List.length_nil]
          simp only [List.length_cons] at hlen
          omega
        apply ih d'
        · rw [hd']; exact hres
        · rw [hd']
          simpa [List.append_assoc] using hnd
        · rw [hd']
          simp only [List.length_append, List.length_cons, List.length_nil]
          simp only [List.length_cons] at hlen
          omega
        · rw [hd']; exact hnov'
        · exact ⟨v, hvws, hvveto⟩

/-- C1: for every consensus decision, a submitted vote with
`is_ethical_veto = true` and `approve = false` forces the decision to
`REJECTED`, for every approval pattern of the other votes (hence every
numeric ratio) and at every position of the veto vote in arrival order. -/
theorem claim1_ethical_veto_forces_rejected
    (hash expected quorum : Nat) (dangerous : Bool) (vs : List ConsensusVote)
    (hnd : (vs.map (fun v => v.ai_identity)).Nodup)
    (hlen : vs.length ≤ expected)
    (hveto : ∃ v ∈ vs, isVetoVote v = true) :
    (vs.foldl submitConsensusVote (requestConsensus hash expected quorum dangerous)).phase
      = .REJECTED := by
  apply veto_rejects_aux vs (requestConsensus hash expected quorum dangerous) rfl
  · simpa [requestConsensus] using hnd
  · simpa [requestConsensus] using hlen
  · intro u hu; cases hu
  · exact hveto

/-- Three votes for the C1 witness: two unanimous approvals around one
ethical-veto vote in the middle of the arrival order. -/
def vetoScenarioVotes : List ConsensusVote :=
  [⟨10, 1, 99, true, mkRat 9 10, 0, 0, 0, false⟩,
   ⟨11, 2, 99, false, mkRat 99 100, 0, 1, 0, true⟩,
   ⟨12, 3, 99, true, mkRat 9 10, 0, 2, 0, false⟩]

/-- Witness for C1: one veto among otherwise unanimous approvals, arriving in
the middle, resolves the concrete decision to `REJECTED`. -/
theorem claim1_ethical_veto_forces_rejected_witness :
    (vetoScenarioVotes.foldl submitConsensusVote (requestConsensus 99 7 3 false)).phase
      = .REJECTED :=
  claim1_ethical_veto_forces_rejected 99 7 3 false vetoScenarioVotes
    (by decide) (by decide) (by decide)

/-- C7: a decision whose deadline elapses while still open with strictly fewer
than `minimum_quorum` votes (and no veto recorded, which an open phase
entails) transitions to `TIMED_OUT`, and the command gate treats `TIMED_OUT`
as a rejection: the command is never executed. -/
theorem claim7_timeout_below_quorum_times_out (d : ConsensusDecision)
    (hopen : d.phase = .OPEN)
    (hnoveto : ∀ u ∈ d.votes, isVetoVote u = false)
    (hq : d.votes.length < d.minimum_quorum) :
    (timeoutTick d).phase = .TIMED_OUT ∧
    gateExecutesOnPhase (timeoutTick d).phase = false := by
  have hres : (timeoutTick d).phase = .TIMED_OUT := by
    have hanyf : d.votes.any isVetoVote = false := by
      rw [List.any_eq_false]
      intro u hu
      simp [hnoveto u hu]
    unfold timeoutTick
    rw [if_pos hopen, if_neg (by simp [hanyf]), if_pos hq]
  exact ⟨hres, by rw [hres]; rfl⟩

/-- A decision with quorum 3 holding exactly two (quorum minus one) approving
votes at the deadline, for the C7 witness. -/
def quorumShortDecision : ConsensusDecision :=
  ⟨99, 7, 3, false,
   [⟨10, 1, 99, true, mkRat 9 10, 0, 0, 0, false⟩,
    ⟨11, 2, 99, true, mkRat 9 10, 0, 1, 0, false⟩],
   .OPEN⟩

/-- Witness for C7: exactly `minimum_quorum - 1` votes at the deadline give
`TIMED_OUT`, which the gate does not execute. -/
theorem claim7_timeout_below_quorum_times_out_witness :
    (timeoutTick quorumShortDecision).phase = .TIMED_OUT ∧
    gateExecutesOnPhase (timeoutTick quorumShortDecision).phase = false :=
  claim7_timeout_below_quorum_times_out quorumShortDecision
    (by decide) (by decide) (by decide)

/-- C9 counterexample: the "dangerous operation" vote counts of the three
headers are three different literals (9 in `TinySecure.h` line 56, 7 in
`SovereignAI.h` line 45, 5 in `NovaCore.h` line 34), so the count is not a
single value used consistently across components. -/
theorem claim9_counterexample_vote_counts_differ :
    TinySecure.DANGEROUS_OPERATION_VOTES ≠ SovereignAI.DANGEROUS_OPERATION_VOTES ∧
    SovereignAI.DANGEROUS_OPERATION_VOTES ≠ NovaCore.DANGEROUS_OPERATION_VOTES_REQUIRED ∧
    TinySecure.DANGEROUS_OPERATION_VOTES ≠ NovaCore.DANGEROUS_OPERATION_VOTES_REQUIRED := by
  decide

/-- C9 (amended): for a dangerous operation the consensus coordinator cannot
reach `APPROVED` - neither by vote-driven resolution nor by the timeout tick -
until at least its own `DANGEROUS_OPERATION_VOTES` (9, from `TinySecure.h`)
votes are received, even when the approval ratio is already met; the three
components, however, each define their own distinct dangerous-operation vote
count. -/
theorem claim9_dangerous_needs_vote_floor (d : ConsensusDecision)
    (hd : d.dangerous = true)
    (hlt : d.votes.length < TinySecure.DANGEROUS_OPERATION_VOTES) :
    (evaluateResolution d ≠ .APPROVED ∧
      (d.phase = .OPEN → (timeoutTick d).phase ≠ .APPROVED)) ∧
    (TinySecure.DANGEROUS_OPERATION_VOTES ≠ SovereignAI.DANGEROUS_OPERATION_VOTES ∧
      SovereignAI.DANGEROUS_OPERATION_VOTES ≠ NovaCore.DANGEROUS_OPERATION_VOTES_REQUIRED) := by
  have hnum : numericOutcome d = .REJECTED := by
    unfold numericOutcome
    rw [if_neg]
    rw [hd]
    simp only [Bool.not_true, Bool.false_or, Bool.and_eq_true, decide_eq_true_eq]
    intro h
    exact absurd h.2 (Nat.not_le.mpr hlt)
  refine ⟨⟨?_, ?_⟩, by decide, by decide⟩
  · unfold evaluateResolution
    by_cases hv : d.votes.any isVetoVote
    · rw [if_pos hv]; intro hc; cases hc
    · rw [if_neg hv]
      by_cases he : d.expected_voters ≤ d.votes.length
      · rw [if_pos he, hnum]; intro hc; cases hc
      · rw [if_neg he]; intro hc; cases hc
  · intro hopen
    unfold timeoutTick
    rw [if_pos hopen]
    by_cases hv : d.votes.any isVetoVote
    · rw [if_pos hv]; intro hc; cases hc
    · rw [if_neg hv]
      by_cases hq : d.votes.length < d.minimum_quorum
      · rw [if_pos hq]; intro hc; cases hc
      · rw [if_neg hq]
        simp only [hnum]
        intro hc; cases hc

/-- A dangerous decision holding three unanimous approvals - ratio met, quorum
met, but far below the nine-vote dangerous-operation floor - for the C9
witness. -/
def dangerousShortDecision : ConsensusDecision :=
  ⟨99, 3, 3, true,
   [⟨10, 1, 99, true, mkRat 9 10, 0, 0, 0, false⟩,
    ⟨11, 2, 99, true, mkRat 9 10, 0, 1, 0, false⟩,
    ⟨12, 3, 99, true, mkRat 9 10, 0, 2, 0, false⟩],
   .OPEN⟩

/-- Witness for C9's amended statement at the concrete dangerous decision. -/
theorem claim9_dangerous_needs_vote_floor_witness :
    evaluateResolution dangerousShortDecision ≠ .APPROVED ∧
    (timeoutTick dangerousShortDecision).phase ≠ .APPROVED :=
  ⟨((claim9_dangerous_needs_vote_floor dangerousShortDecision (by decide) (by decide)).1).1,
   ((claim9_dangerous_needs_vote_floor dangerousShortDecision (by decide) (by decide)).1).2
     (by decide)⟩

/-! ## TargetRegistry (spec section 4.3; `NanobotTarget` from `TinySecure.h`
lines 118-130, constant line 64, declaration `authorizeTarget` line 246) -/

/-- `SAFETY_PERIMETER_RADIUS` (0.1 meters) from `TinySecure.h` line 64. -/
def SAFETY_PERIMETER_RADIUS : ℚ := mkRat 1 10

/-- `NanobotTarget` from `TinySecure.h` lines 118-130.  Float coordinates and
radii become `ℚ`; the `target_type` string becomes a `Nat` code. -/
structure NanobotTarget where
  target_id : Nat
  x_coordinate : ℚ
  y_coordinate : ℚ
  z_coordinate : ℚ
  precision_radius : ℚ
  swarm_id : Nat
  target_type : Nat
  is_authorized : Bool
  authorization_time : Nat
  authorization_signature : Nat
  requires_safety_check : Bool
deriving DecidableEq

/-- Squared Euclidean distance between two target centres. -/
def distSq (a b : NanobotTarget) : ℚ :=
  (a.x_coordinate - b.x_coordinate) * (a.x_coordinate - b.x_coordinate) +
  (a.y_coordinate - b.y_coordinate) * (a.y_coordinate - b.y_coordinate) +
  (a.z_coordinate - b.z_coordinate) * (a.z_coordinate - b.z_coordinate)

/-- Radius of a target's safety sphere: its precision radius plus the global
safety-perimeter radius (spec glossary, `TinySecure.h` line 64). -/
def safetyRadius (t : NanobotTarget) : ℚ :=
  t.precision_radius + SAFETY_PERIMETER_RADIUS

/-- Two safety spheres overlap when the centre distance is below the sum of
the sphere radii; compared on squares since both sides are nonnegative. -/
def spheresOverlap (a b : NanobotTarget) : Bool :=
  decide (distSq a b <
    (safetyRadius a + safetyRadius b) * (safetyRadius a + safetyRadius b))

/-- Result of `authorize(target)` (spec 4.3): `Authorized | Overlapping |
SignatureInvalid`. -/
inductive AuthorizeResult where
  | authorized
  | overlapping
  | signatureInvalid
deriving DecidableEq

/-- Modelled from the spec: the authorized-target table behind
`TinySecure::authorizeTarget` (`TinySecure.h` lines 190-191 declare the
array; the managing code is absent from the repository). -/
structure TargetRegistry where
  targets : List NanobotTarget

/-- Modelled from the spec: `TinySecure::authorizeTarget` (declaration
`TinySecure.h` line 246, body absent; spec 4.3).  The registry signs the
target with the master key (`signature_ok` reports that step), rejects the
candidate when any already-authorized target's safety sphere intersects its
own, and otherwise records it as authorized. -/
def authorizeTarget (reg : TargetRegistry) (t : NanobotTarget) (signature_ok : Bool) :
    AuthorizeResult × TargetRegistry :=
  if !signature_ok then (.signatureInvalid, reg)
  else if reg.targets.any (fun u => spheresOverlap u t) then (.overlapping, reg)
  else (.authorized, ⟨reg.targets ++ [{ t with is_authorized := true }]⟩)

/-- Sphere overlap is symmetric in the two targets. -/
theorem spheresOverlap_comm (a b : NanobotTarget) :
    spheresOverlap a b = spheresOverlap b a := by
  have h1 : distSq a b = distSq b a := by unfold distSq; ring
  have h2 : (safetyRadius a + safetyRadius b) * (safetyRadius a + safetyRadius b)
      = (safetyRadius b + safetyRadius a) * (safetyRadius b + safetyRadius a) := by ring
  rw [spheresOverlap, spheresOverlap, h1, h2]

/-- The overlap test ignores the authorization flag set on the stored copy. -/
theorem spheresOverlap_mark (a b : NanobotTarget) :
    spheresOverlap { a with is_authorized := true } b = spheresOverlap a b := rfl

/-- C4: whenever the safety spheres of two targets overlap, authorizing one
from an empty registry succeeds and then authorizing the other fails with
`overlapping`, in either call order. -/
theorem claim4_overlapping_targets_rejected (A B : NanobotTarget)
    (hov : spheresOverlap A B = true) :
    ((authorizeTarget ⟨[]⟩ A true).1 = .authorized ∧
      (authorizeTarget (authorizeTarget ⟨[]⟩ A true).2 B true).1 = .overlapping) ∧
    ((authorizeTarget ⟨[]⟩ B true).1 = .authorized ∧
      (authorizeTarget (authorizeTarget ⟨[]⟩ B true).2 A true).1 = .overlapping) := by
  have hov' : spheresOverlap B A = true := by rw [spheresOverlap_comm]; exact hov
  refine ⟨⟨rfl, ?_⟩, ⟨rfl, ?_⟩⟩
  · show (authorizeTarget ⟨[{ A with is_authorized := true }]⟩ B true).1 = .overlapping
    unfold authorizeTarget
    rw [if_neg (by simp), if_pos (by simp [spheresOverlap_mark, hov])]
  · show (authorizeTarget ⟨[{ B with is_authorized := true }]⟩ A true).1 = .overlapping
    unfold authorizeTarget
    rw [if_neg (by simp), if_pos (by simp [spheresOverlap_mark, hov'])]

/-- The first scenario target of spec section 8: centre (0,0,0), precision
radius 0.05. -/
def scenarioTargetOne : NanobotTarget :=
  ⟨1, 0, 0, 0, mkRat 1 20, 1, 0, false, 0, 0, true⟩

/-- The second scenario target of spec section 8: centre (0,0,0.08),
precision radius 0.05. -/
def scenarioTargetTwo : NanobotTarget :=
  ⟨2, 0, 0, mkRat 2 25, mkRat 1 20, 1, 0, false, 0, 0, true⟩

/-- The spheres of the two scenario targets overlap: the centres are 0.08
apart while the sphere radii sum to 0.3. -/
theorem scenario_targets_overlap :
    spheresOverlap scenarioTargetOne scenarioTargetTwo = true := by
  simp only [spheresOverlap, distSq, safetyRadius, SAFETY_PERIMETER_RADIUS,
    scenarioTargetOne, scenarioTargetTwo, Rat.mkRat_eq_div, decide_eq_true_eq]
  norm_num

/-- Witness for C4: the end-to-end scenario with global perimeter 0.1 - the
target at (0,0,0) with radius 0.05 is authorized and forces rejection of the
target at (0,0,0.08) with radius 0.05 as overlapping. -/
theorem claim4_overlapping_targets_rejected_witness :
    spheresOverlap scenarioTargetOne scenarioTargetTwo = true ∧
    (authorizeTarget ⟨[]⟩ scenarioTargetOne true).1 = .authorized ∧
    (authorizeTarget (authorizeTarget ⟨[]⟩ scenarioTargetOne true).2
      scenarioTargetTwo true).1 = .overlapping :=
  ⟨scenario_targets_overlap,
   ((claim4_overlapping_targets_rejected scenarioTargetOne scenarioTargetTwo
      scenario_targets_overlap).1).1,
   ((claim4_overlapping_targets_rejected scenarioTargetOne scenarioTargetTwo
      scenario_targets_overlap).1).2⟩

/-! ## Ledger (spec section 4.4; `BlockchainTransaction` from `TinySecure.h`
lines 133-144, declaration `submitBlockchainTransaction` line 260) -/

/-- `BlockchainTransaction` from `TinySecure.h` lines 133-144.  String
hashes and signatures become `Nat`; the validating-node JsonArray is kept as
a list of node identifiers. -/
structure BlockchainTransaction where
  transaction_id : Nat
  command_hash : Nat
  sender_signature : Nat
  ai_consensus_signature : Nat
  timestamp : Nat
  block_number : Nat
  previous_hash : Nat
  merkle_root : Nat
  validation_nodes : List Nat
  is_confirmed : Bool
deriving DecidableEq

/-- Modelled from the spec: the transaction digest used for chaining (spec 3:
`previous_hash` must equal the hash of the previous transaction), modelled as
an injective encoding of the hashed fields. -/
def hashTransaction (t : BlockchainTransaction) : Nat :=
  Nat.pair t.transaction_id (Nat.pair t.command_hash
    (Nat.pair t.sender_signature (Nat.pair t.timestamp
      (Nat.pair t.block_number (Nat.pair t.previous_hash t.merkle_root)))))

/-- Hash value chained by the first transaction of a ledger. -/
def GENESIS_HASH : Nat := 0

/-- Modelled from the spec: the append-only chain behind
`TinySecure::submitBlockchainTransaction` (`TinySecure.h` line 195 declares
the pending-transaction array; the managing code is absent from the
repository). -/
structure Ledger where
  chain : List BlockchainTransaction

/-- Digest of the ledger tail, `GENESIS_HASH` for an empty chain. -/
def tailHash (L : Ledger) : Nat :=
  match L.chain.getLast? with
  | some t => hashTransaction t
  | none => GENESIS_HASH

/-- Block number of the ledger tail, 0 for an empty chain. -/
def tailBlockNumber (L : Ledger) : Nat :=
  match L.chain.getLast? with
  | some t => t.block_number
  | none => 0

/-- Result of `append(transaction)` (spec 4.4): `Accepted | ChainBroken |
SequenceError`. -/
inductive AppendResult where
  | accepted
  | chainBroken
  | sequenceError
deriving DecidableEq

/-- Modelled from the spec: `append(transaction)` behind
`TinySecure::submitBlockchainTransaction` (declaration `TinySecure.h` line
260, body absent; spec 4.4): `ChainBroken` when `previous_hash` does not
match the tail's hash, `SequenceError` when `block_number` is not tail plus
one, and append is the only mutation. -/
def appendTransaction (L : Ledger) (t : BlockchainTransaction) : AppendResult × Ledger :=
  if t.previous_hash = tailHash L then
    if t.block_number = tailBlockNumber L + 1 then (.accepted, ⟨L.chain ++ [t]⟩)
    else (.sequenceError, L)
  else (.chainBroken, L)

/-- Replay of a whole transaction list through `appendTransaction`. -/
def appendAll (L : Ledger) (ts : List BlockchainTransaction) : Ledger :=
  ts.foldl (fun acc t => (appendTransaction acc t).2) L

/-- A transaction list is well chained on a ledger when each element links the
tail hash and continues the block numbering. -/
def wellChainedB : Ledger → List BlockchainTransaction → Bool
  | _, [] => true
  | L, t :: ts =>
      (t.previous_hash == tailHash L) && (t.block_number == tailBlockNumber L + 1) &&
        wellChainedB ⟨L.chain ++ [t]⟩ ts

/-- C6: `append` returns `chainBroken` on a tail-hash mismatch and
`sequenceError` on a block-number gap, every rejection leaves the chain
unchanged, and replaying a correctly chained transaction list appends exactly
that sequence in order. -/
theorem claim6_append_guards_and_ordered_replay (L : Ledger) (t : BlockchainTransaction) :
    (t.previous_hash ≠ tailHash L → appendTransaction L t = (.chainBroken, L)) ∧
    (t.previous_hash = tailHash L → t.block_number ≠ tailBlockNumber L + 1 →
      appendTransaction L t = (.sequenceError, L)) ∧
    ((appendTransaction L t).1 ≠ .accepted → (appendTransaction L t).2 = L) ∧
    (∀ ts, wellChainedB L ts = true → (appendAll L ts).chain = L.chain ++ ts) := by
  refine ⟨?_, ?_, ?_, ?_⟩
  · intro h
    unfold appendTransaction
    rw [if_neg h]
  · intro h1 h2
    unfold appendTransaction
    rw [if_pos h1, if_neg h2]
  · intro h
    unfold appendTransaction at h ⊢
    by_cases h1 : t.previous_hash = tailHash L
    · by_cases h2 : t.block_number = tailBlockNumber L + 1
      · rw [if_pos h1, if_pos h2] at h
        exact absurd rfl h
      · rw [if_pos h1, if_neg h2]
    · rw [if_neg h1]
  · clear t
    intro ts
    induction ts generalizing L with
    | nil =>
        intro _
        simp [appendAll]
    | cons t ts ih =>
        intro hwc
        unfold wellChainedB at hwc
        rw [Bool.and_eq_true, Bool.and_eq_true] at hwc
        obtain ⟨⟨hp, hn⟩, hrest⟩ := hwc
        have hstep : appendTransaction L t = (.accepted, ⟨L.chain ++ [t]⟩) := by
          unfold appendTransaction
          rw [if_pos (eq_of_beq hp), if_pos (eq_of_beq hn)]
        show (appendAll (appendTransaction L t).2 ts).chain = L.chain ++ t :: ts
        rw [hstep]
        rw [ih ⟨L.chain ++ [t]⟩ hrest]
        simp

/-- The empty ledger. -/
def emptyLedger : Ledger := ⟨[]⟩

/-- First transaction of the C6 witness chain, linking the genesis hash. -/
def genesisTransaction : BlockchainTransaction :=
  ⟨1, 21, 0, 0, 0, 1, GENESIS_HASH, 0, [], false⟩

/-- Second transaction of the C6 witness chain, linking the first. -/
def secondTransaction : BlockchainTransaction :=
  ⟨2, 22, 0, 0, 1, 2, hashTransaction genesisTransaction, 0, [], false⟩

/-- A transaction whose `previous_hash` matches no tail. -/
def brokenTransaction : BlockchainTransaction :=
  ⟨3, 23, 0, 0, 2, 1, 12345, 0, [], false⟩

/-- Witness for C6: the broken transaction is rejected as `chainBroken` with
the chain unchanged, and replaying the two well-chained transactions reads
back exactly that sequence in order. -/
theorem claim6_append_guards_and_ordered_replay_witness :
    appendTransaction emptyLedger brokenTransaction = (.chainBroken, emptyLedger) ∧
    (appendAll emptyLedger [genesisTransaction, secondTransaction]).chain
      = emptyLedger.chain ++ [genesisTransaction, secondTransaction] :=
  ⟨(claim6_append_guards_and_ordered_replay emptyLedger brokenTransaction).1 (by decide),
   (claim6_append_guards_and_ordered_replay emptyLedger brokenTransaction).2.2.2
     [genesisTransaction, secondTransaction] (by decide)⟩

/-! ## CommandGate control flow (`main.cpp` lines 346-376, `NovaCore.h` lines
103-111, `SovereignAI.h` line 56) -/

/-- `CONFIDENCE_THRESHOLD` (0.85) from `SovereignAI.h` line 56. -/
def CONFIDENCE_THRESHOLD : ℚ := mkRat 85 100

/-- `SecurityValidation` from `NovaCore.h` lines 103-111.  String fields
become `Nat`; the vote JsonArray becomes a list of vote identifiers. -/
structure SecurityValidation where
  blockchain_hash : Nat
  ephemeral_key : Nat
  key_expiration : Nat
  multi_ai_consensus_reached : Bool
  ai_votes : List Nat
  command_signature : Nat
  ethical_parameters_met : Bool
deriving DecidableEq

/-- Which effects one command of the `processNanobotCommands` loop reaches. -/
structure CommandTrace where
  security_validation_called : Bool
  command_sent : Bool
deriving DecidableEq

/-- One iteration of the command loop of `processNanobotCommands`
(`main.cpp` lines 346-376): the swarm dispatch `nanoLink.sendCommand` sits
inside `decision.confidence_score >= CONFIDENCE_THRESHOLD`, and inside that
branch inside `validation.ethical_parameters_met &&
validation.multi_ai_consensus_reached`; the security validation itself is
requested only inside the confidence branch.  The success of the dispatch
affects logging only. -/
def processNanobotCommand (confidence_score : ℚ) (validation : SecurityValidation) :
    CommandTrace :=
  if CONFIDENCE_THRESHOLD ≤ confidence_score then
    if validation.ethical_parameters_met && validation.multi_ai_consensus_reached then
      ⟨true, true⟩
    else
      ⟨true, false⟩
  else
    ⟨false, false⟩

/-- C8: a scored proposal whose confidence is strictly below
`CONFIDENCE_THRESHOLD` is rejected automatically - the security validation
(and with it any target-registry authorization check) is never reached and
the command is never dispatched. -/
theorem claim8_low_confidence_auto_reject (confidence_score : ℚ)
    (validation : SecurityValidation)
    (h : confidence_score < CONFIDENCE_THRESHOLD) :
    (processNanobotCommand confidence_score validation).security_validation_called = false ∧
    (processNanobotCommand confidence_score validation).command_sent = false := by
  unfold processNanobotCommand
  rw [if_neg (not_le.mpr h)]
  exact ⟨rfl, rfl⟩

/-- A fully positive security validation record. -/
def passingValidation : SecurityValidation :=
  ⟨0, 0, 0, true, [], 0, true⟩

/-- Witness for C8 at confidence 0.5 against threshold 0.85. -/
theorem claim8_low_confidence_auto_reject_witness :
    mkRat 1 2 < CONFIDENCE_THRESHOLD ∧
    (processNanobotCommand (mkRat 1 2) passingValidation).security_validation_called = false ∧
    (processNanobotCommand (mkRat 1 2) passingValidation).command_sent = false :=
  ⟨by decide,
   claim8_low_confidence_auto_reject (mkRat 1 2) passingValidation (by decide)⟩

/-- C10: in the main firmware loop every pending command is dispatched to the
swarm only when the decision confidence reaches `CONFIDENCE_THRESHOLD` and
the security validation reports both `ethical_parameters_met` and
`multi_ai_consensus_reached`; no control path dispatches with any of the
three conditions false. -/
theorem claim10_dispatch_requires_all_gates (confidence_score : ℚ)
    (validation : SecurityValidation)
    (h : (processNanobotCommand confidence_score validation).command_sent = true) :
    CONFIDENCE_THRESHOLD ≤ confidence_score ∧
    validation.ethical_parameters_met = true ∧
    validation.multi_ai_consensus_reached = true := by
  unfold processNanobotCommand at h
  by_cases hc : CONFIDENCE_THRESHOLD ≤ confidence_score
  · rw [if_pos hc] at h
    by_cases hg : validation.ethical_parameters_met && validation.multi_ai_consensus_reached
    · rw [if_pos hg] at h
      rw [Bool.and_eq_true] at hg
      exact ⟨hc, hg.1, hg.2⟩
    · rw [if_neg hg] at h
      cases h
  · rw [if_neg hc] at h
    cases h

/-- Witness for C10: a dispatched command at confidence 0.9 with a passing
validation indeed satisfies all three gate conditions. -/
theorem claim10_dispatch_requires_all_gates_witness :
    CONFIDENCE_THRESHOLD ≤ mkRat 9 10 ∧
    passingValidation.ethical_parameters_met = true ∧
    passingValidation.multi_ai_consensus_reached = true :=
  claim10_dispatch_requires_all_gates (mkRat 9 10) passingValidation (by decide)

end NovaTiny
